import Mathlib

/-!
Shallow embedding of the Verification & Remediation Engine of the
claude-kompendium hooks:

* `src/hooks/betty-auto-test-fix.py` — class `BettyAutoTestFix`:
  the Stage Runner (`run_command`), the Failure Classifier
  (`parse_test_failures`, `parse_lint_failures`, `parse_type_failures`,
  `parse_build_failures` and the per-stage guard in `run_all_tests`),
  the fix dispatcher (`attempt_fixes`), two representative fixers
  (`fix_missing_import_js`, `fix_import_error_py`), and the top-level
  control flow of `run_comprehensive_test`.

* `src/hooks/smart-completion-guardian.py` — class
  `SmartCompletionGuardian`: the Completion Gate (`should_check`,
  `run_checks`, `check_git_status`, `check_completion`).

Conventions of the embedding:

* Python strings are Lean `String`s; the Python substring operator
  `needle in hay` is `pyIn needle hay`, and `str.lower()` is `strLower`.
* `subprocess.run` is modelled by an explicit outcome value
  (`ProcResult`); `re.findall` and `re.search` (library calls) are
  modelled as oracle parameters (`findall`, `search_module`), so the
  classifier logic around them is embedded exactly while the regex
  engine itself stays abstract.
* Filesystem reads/writes and command execution inside fixers are
  modelled as explicit effect parameters; a Python `try ... except:
  return False` block is embedded as an `Except`-valued body plus a
  total wrapper that maps any error to `false`.
-/

/-- Single-quote character, used to build Python string literals that
contain quotes. -/
def apos : String := String.singleton (Char.ofNat 39)

/-- Lowercasing of a string character by character, embedding Python's
`str.lower()` on the ASCII text these hooks handle. -/
def strLower (s : String) : String := String.mk (s.data.map Char.toLower)

/-- Does the first character list start with the second one as a prefix? -/
def startsWithChars : List Char → List Char → Bool
  | [], _ => true
  | _ :: _, [] => false
  | a :: as, b :: bs => a == b && startsWithChars as bs

/-- Does `needle` occur as a contiguous run inside the character list? -/
def occursInChars (needle : List Char) : List Char → Bool
  | [] => startsWithChars needle []
  | c :: rest => startsWithChars needle (c :: rest) || occursInChars needle rest

/-- Embedding of Python's substring test `needle in hay`. -/
def pyIn (needle hay : String) : Bool := occursInChars needle.data hay.data

/-- BettyAutoTestFix.max_fix_attempts, set in `__init__`
(betty-auto-test-fix.py line 63). -/
def max_fix_attempts : Nat := 3

/-- Outcome of `subprocess.run` as observed by `run_command`
(betty-auto-test-fix.py lines 223-251): normal completion with a return
code and captured output, a `TimeoutExpired`, or any other exception
raised while launching the command. -/
inductive ProcResult where
  | completed (returncode : Int) (stdout stderr : String)
  | timedOut
  | failed (msg : String)
deriving DecidableEq

/-- The dictionary returned by `BettyAutoTestFix.run_command`. -/
structure CmdResult where
  success : Bool
  output : String
  returncode : Int
deriving DecidableEq

/-- BettyAutoTestFix.run_command (betty-auto-test-fix.py lines 223-251):
a total function of the subprocess outcome — every branch, including
timeout and launch failure, returns a result dictionary instead of
raising. -/
def run_command : ProcResult → CmdResult
  | .completed rc out err =>
      { success := rc == 0, output := out ++ err, returncode := rc }
  | .timedOut =>
      { success := false, output := "Command timed out after 60 seconds", returncode := -1 }
  | .failed e =>
      { success := false, output := e, returncode := -1 }

/-- A classified failure dictionary as built by the `parse_*_failures`
methods. Absent dictionary keys are `none` / `[]`; `fixable` defaults to
`false`, matching Python's falsy `dict.get('fixable')` on a dictionary
without that key. -/
structure Issue where
  type : String
  command : String
  details : List String := []
  file : Option String := none
  line : Option String := none
  column : Option String := none
  message : Option String := none
  fixable : Bool := false
deriving DecidableEq

/-- The four test-failure regexes of `parse_test_failures`
(betty-auto-test-fix.py lines 258-263), kept as data in source order. -/
def test_failure_patterns : List String :=
  ["FAIL\\s+(.+?)\\.(.+?)\\s",
   "FAILED\\s+(.+?)::(.+?)\\s",
   "AssertionError:\\s+(.+)",
   "Error:\\s+(.+)"]

/-- The two lint-failure regexes of `parse_lint_failures`
(betty-auto-test-fix.py lines 282-285). -/
def lint_failure_patterns : List String :=
  ["(.+?):(\\d+):(\\d+):\\s+error:\\s+(.+)",
   "(.+?):(\\d+):(\\d+):\\s+(.+)"]

/-- The two (textually identical) type-failure regexes of
`parse_type_failures` (betty-auto-test-fix.py lines 306-309). -/
def type_failure_patterns : List String :=
  ["(.+?):(\\d+):\\s+error:\\s+(.+)",
   "(.+?):(\\d+):\\s+error:\\s+(.+)"]

/-- The issue dictionary appended for each match in
`parse_test_failures`. -/
def mkTestIssue (command : String) (m : List String) : Issue :=
  { type := "test_failure", command := command, details := m, fixable := true }

/-- The issue dictionary appended for each match in
`parse_lint_failures`, with `match[2] if len(match) > 2 else 0` for the
column and `match[-1]` for the message. -/
def mkLintIssue (command : String) (m : List String) : Issue :=
  { type := "lint_error", command := command,
    file := some (m.getD 0 ""), line := some (m.getD 1 ""),
    column := some (if 2 < m.length then m.getD 2 "" else "0"),
    message := some ((m.getLast?).getD ""), fixable := true }

/-- The issue dictionary appended for each match in
`parse_type_failures`. -/
def mkTypeIssue (command : String) (m : List String) : Issue :=
  { type := "type_error", command := command,
    file := some (m.getD 0 ""), line := some (m.getD 1 ""),
    message := some (m.getD 2 ""), fixable := true }

/-- BettyAutoTestFix.parse_test_failures (lines 253-275): loop over the
patterns in order, appending one issue per `re.findall` match, then
`return failures[:10]`. `findall` is the `re.findall` oracle, giving the
group tuples of one pattern on one output. -/
def parse_test_failures (findall : String → String → List (List String))
    (output command : String) : List Issue :=
  (test_failure_patterns.foldl
    (fun acc p => acc ++ (findall p output).map (mkTestIssue command)) []).take 10

/-- BettyAutoTestFix.parse_lint_failures (lines 277-300), same loop shape
as `parse_test_failures`. -/
def parse_lint_failures (findall : String → String → List (List String))
    (output command : String) : List Issue :=
  (lint_failure_patterns.foldl
    (fun acc p => acc ++ (findall p output).map (mkLintIssue command)) []).take 10

/-- BettyAutoTestFix.parse_type_failures (lines 302-323), same loop shape
as `parse_test_failures`. -/
def parse_type_failures (findall : String → String → List (List String))
    (output command : String) : List Issue :=
  (type_failure_patterns.foldl
    (fun acc p => acc ++ (findall p output).map (mkTypeIssue command)) []).take 10

/-- BettyAutoTestFix.parse_build_failures (lines 325-337): only when
`'docker' in command.lower()` and the output mentions yaml/yml does it
append a single `yaml_error` issue (with `fixable=True`); otherwise it
returns the empty list. -/
def parse_build_failures (output command : String) : List Issue :=
  if pyIn "docker" (strLower command) then
    if pyIn "yaml" (strLower output) || pyIn "yml" (strLower output) then
      [{ type := "yaml_error", command := command, fixable := true }]
    else []
  else []

/-- The four stage kinds run by `run_all_tests` (config keys
`test_commands`, `lint_commands`, `type_commands`, `build_commands`). -/
inductive StageKind where
  | test
  | lint
  | typeCheck
  | build
deriving DecidableEq

/-- The contribution of one stage to `results['failures']` in
BettyAutoTestFix.run_all_tests (lines 149-221): each stage's parser runs
only under `if not result['success']`, so a successful stage contributes
nothing regardless of its output. -/
def stage_issues (findall : String → String → List (List String))
    (kind : StageKind) (command : String) (result : CmdResult) : List Issue :=
  if result.success then []
  else
    match kind with
    | .test => parse_test_failures findall result.output command
    | .lint => parse_lint_failures findall result.output command
    | .typeCheck => parse_type_failures findall result.output command
    | .build => parse_build_failures result.output command

/-- The dictionary built by BettyAutoTestFix.attempt_fixes
(betty-auto-test-fix.py lines 342-348). -/
structure FixResults where
  attempted : Nat
  fixed : List Issue
  failed : List Issue
  fixed_count : Nat
  all_fixed : Bool
deriving DecidableEq

/-- One fix dispatch of `attempt_fixes` (lines 362-377): the kind-specific
fixer from `common_fixes` when the failure type is registered, otherwise
`attempt_generic_fix`. `fixers` embeds the `common_fixes` dictionary and
`genericFix` the generic fallback; both are total, as every fixer in the
source catches its own exceptions and returns a boolean. -/
def dispatch_fix (fixers : String → Option (Issue → Bool))
    (genericFix : Issue → Bool) (failure : Issue) : Bool :=
  match fixers failure.type with
  | some fixer => fixer failure
  | none => genericFix failure

/-- The body of the `for failure in test_results['failures']` loop of
`attempt_fixes` (lines 353-377): non-fixable failures are skipped before
the attempt counter moves, fixable ones are dispatched and recorded as
fixed or failed. -/
def attempt_fixes_step (fixers : String → Option (Issue → Bool))
    (genericFix : Issue → Bool) (acc : FixResults) (failure : Issue) : FixResults :=
  if !failure.fixable then acc
  else
    let acc := { acc with attempted := acc.attempted + 1 }
    if dispatch_fix fixers genericFix failure then
      { acc with fixed := acc.fixed ++ [failure], fixed_count := acc.fixed_count + 1 }
    else
      { acc with failed := acc.failed ++ [failure] }

/-- BettyAutoTestFix.attempt_fixes (lines 339-381): fold the loop body over
the failure list, then set `all_fixed = (fixed_count == len(failures))`,
comparing against the length of the whole failure list, non-fixable
entries included. -/
def attempt_fixes (fixers : String → Option (Issue → Bool))
    (genericFix : Issue → Bool) (failures : List Issue) : FixResults :=
  let r := failures.foldl (attempt_fixes_step fixers genericFix)
    { attempted := 0, fixed := [], failed := [], fixed_count := 0, all_fixed := false }
  { r with all_fixed := r.fixed_count == failures.length }

/-- Which terminal report `run_comprehensive_test` produces
(betty-auto-test-fix.py lines 86-108): no failures at all, all issues
fixed and verified, a partial fix (`fixed_count` issues claimed fixed,
`remaining` failures in the final verification), or the
could-not-fix-all report. -/
inductive FlowOutcome where
  | allPassing
  | fullyFixed (fixed_count : Nat)
  | partiallyFixed (fixed_count remaining : Nat)
  | fixesFailed
deriving DecidableEq

/-- Observable trace of one `run_comprehensive_test` invocation:
how many `attempt_fixes` passes ran, how many `run_all_tests`
verification passes ran, the `all_fixed` flag of the fix pass (when one
ran), and the terminal report. -/
structure FlowTrace where
  fixRounds : Nat
  verifyPasses : Nat
  all_fixed : Option Bool
  outcome : FlowOutcome
deriving DecidableEq

/-- The control flow of BettyAutoTestFix.run_comprehensive_test
(betty-auto-test-fix.py lines 84-108): one `run_all_tests` pass; if it
reports failures, a single `attempt_fixes` pass; only when that pass
claims `all_fixed` does one re-verification `run_all_tests` pass run,
choosing between the success and the partial report. `runTests k` gives
the failure list of the `k`-th `run_all_tests` call (the project state
may change between calls because fixers edit files). -/
def run_comprehensive_flow (runTests : Nat → List Issue)
    (fixers : String → Option (Issue → Bool)) (genericFix : Issue → Bool) : FlowTrace :=
  let failures := runTests 0
  if failures.isEmpty then
    { fixRounds := 0, verifyPasses := 1, all_fixed := none, outcome := .allPassing }
  else
    let fx := attempt_fixes fixers genericFix failures
    if fx.all_fixed then
      let finalFailures := runTests 1
      if finalFailures.isEmpty then
        { fixRounds := 1, verifyPasses := 2, all_fixed := some true,
          outcome := .fullyFixed fx.fixed_count }
      else
        { fixRounds := 1, verifyPasses := 2, all_fixed := some true,
          outcome := .partiallyFixed fx.fixed_count finalFailures.length }
    else
      { fixRounds := 1, verifyPasses := 1, all_fixed := some false,
        outcome := .fixesFailed }

/-- The Python literal `"'React' is not defined"` tested by
`fix_missing_import_js`. -/
def reactUndefinedMsg : String := apos ++ "React" ++ apos ++ " is not defined"

/-- The Python literal `"import React from 'react';\n"` prepended by
`fix_missing_import_js`. -/
def reactImportLine : String := "import React from " ++ apos ++ "react" ++ apos ++ ";\n"

/-- The `try` body of BettyAutoTestFix.fix_missing_import_js
(betty-auto-test-fix.py lines 384-408), with the filesystem read `fs` and
write `w` as explicit fallible effects. A missing `file` key returns
`false`; a matching message with no existing React import prepends
the React import line, writes the file and returns `true`; every other
path
returns `false`. -/
def fix_missing_import_js_body (fs : String → Except String String)
    (w : String → String → Except String Unit) (failure : Issue) :
    Except String Bool := do
  match failure.file with
  | none => return false
  | some file_path =>
    let content ← fs file_path
    let message := failure.message.getD ""
    if pyIn reactUndefinedMsg message then
      if !(pyIn "import React" content) then do
        let content := reactImportLine ++ content
        _ ← w file_path content
        return true
      else
        return false
    else
      return false

/-- BettyAutoTestFix.fix_missing_import_js with its `except: return False`
wrapper: any error of the body becomes the boolean `false`. -/
def fix_missing_import_js (fs : String → Except String String)
    (w : String → String → Except String Unit) (failure : Issue) : Bool :=
  match fix_missing_import_js_body fs w failure with
  | .error _ => false
  | .ok b => b

/-- The `try` body of BettyAutoTestFix.fix_import_error_py
(betty-auto-test-fix.py lines 476-499): read the file, and when the
message mentions a missing module, extract the module name with
`re.search` (the oracle `search_module`) and report the success of
`pip install <module>` run through `run_command` (modelled by `run`). -/
def fix_import_error_py_body (fs : String → Except String String)
    (run : String → CmdResult) (search_module : String → Option String)
    (failure : Issue) : Except String Bool := do
  match failure.file with
  | none => return false
  | some file_path =>
    let _content ← fs file_path
    let message := failure.message.getD ""
    if pyIn "No module named" message then
      match search_module message with
      | some module => return (run ("pip install " ++ module)).success
      | none => return false
    else
      return false

/-- BettyAutoTestFix.fix_import_error_py with its `except: return False`
wrapper. -/
def fix_import_error_py (fs : String → Except String String)
    (run : String → CmdResult) (search_module : String → Option String)
    (failure : Issue) : Bool :=
  match fix_import_error_py_body fs run search_module failure with
  | .error _ => false
  | .ok b => b

/-- The hook payload fields read by SmartCompletionGuardian.should_check:
`tool_name` and the nested `tool_input.command` (each defaulting to the
empty string when absent). -/
structure ToolInput where
  tool_name : String
  command : String
deriving DecidableEq

/-- SmartCompletionGuardian.completion_patterns
(smart-completion-guardian.py lines 16-19). -/
def completion_patterns : List String :=
  ["all done", "complete", "finished", "ready",
   "all set", "that" ++ apos ++ "s it", "task complete"]

/-- SmartCompletionGuardian.should_check (lines 21-34): only `Bash` tool
calls whose lowered command mentions `echo` or `print` and contains one
of the completion patterns count as completion attempts. -/
def should_check (t : ToolInput) : Bool :=
  if t.tool_name != "Bash" then false
  else
    let command := strLower t.command
    if pyIn "echo" command || pyIn "print" command then
      completion_patterns.any (fun pat => pyIn pat (strLower command))
    else false

/-- An issue dictionary of the guardian's checks
(smart-completion-guardian.py, `check_javascript` .. `check_git_status`). -/
structure GIssue where
  type : String
  file : Option String := none
  line : Option String := none
  column : Option String := none
  message : String := ""
  fix_hint : String := ""
deriving DecidableEq

/-- Characters removed by Python's `str.strip()`. -/
def pyIsSpace (c : Char) : Bool :=
  c == ' ' || c == '\t' || c == '\n' || c == '\r' ||
  c == Char.ofNat 11 || c == Char.ofNat 12

/-- Embedding of Python's `str.strip()`: drop whitespace from both ends. -/
def pyStrip (s : String) : String :=
  String.mk ((((s.data.dropWhile pyIsSpace).reverse).dropWhile pyIsSpace).reverse)

/-- Splitting a character list at every newline; on the empty list the
result is `[[]]`, matching Python's `''.split('\n') == ['']`. -/
def splitNlChars : List Char → List (List Char)
  | [] => [[]]
  | c :: rest =>
    let r := splitNlChars rest
    if c == '\n' then [] :: r
    else
      match r with
      | [] => [[c]]
      | h :: t => (c :: h) :: t

/-- Embedding of Python's `str.split('\n')`. -/
def pySplitNl (s : String) : List String :=
  (splitNlChars s.data).map String.mk

/-- SmartCompletionGuardian.check_git_status (lines 199-220), as a
function of the `git status --porcelain` stdout: when stdout is
non-empty it counts `len(stdout.strip().split('\n'))` modified files and
warns only when that count exceeds 10. -/
def check_git_status (stdout : String) : List GIssue :=
  if stdout.isEmpty then []
  else
    let modified_files := (pySplitNl (pyStrip stdout)).length
    if modified_files > 10 then
      [{ type := "git_warning",
         message := toString modified_files ++ " files have uncommitted changes",
         fix_hint := "Consider committing changes before marking complete" }]
    else []

/-- SmartCompletionGuardian.run_checks (lines 36-65): the issue lists of
the four subprocess-driven checks (`check_javascript`, `check_python`,
`check_docker`, `check_linting`, modelled as parameters) and of
`check_git_status`, extended in order into one list. -/
def run_checks (js py docker lint : List GIssue) (gitStdout : String) : List GIssue :=
  js ++ py ++ docker ++ lint ++ check_git_status gitStdout

/-- The gate's observable decision in
SmartCompletionGuardian.check_completion: either the tool call is
allowed to proceed, or a block action carrying the found issues is
emitted. -/
inductive GateResult where
  | allow
  | block (blockingIssues : List GIssue)
deriving DecidableEq

/-- Is the completion allowed (no block action emitted)? -/
def GateResult.allowed : GateResult → Bool
  | .allow => true
  | .block _ => false

/-- SmartCompletionGuardian.check_completion
(smart-completion-guardian.py lines 269-322): non-completion tool calls
pass through; otherwise `run_checks` runs — its issues block exactly
when non-empty — and the surrounding `except` clause turns any internal
error of the checks into an allow (fail open). `run_checks_result`
models the outcome of the `run_checks` call: a list of issues, or the
exception it raised. -/
def check_completion (tool_input : ToolInput)
    (run_checks_result : Except String (List GIssue)) : GateResult :=
  if !(should_check tool_input) then .allow
  else
    match run_checks_result with
    | .error _ => .allow
    | .ok issues =>
      if !issues.isEmpty then .block issues
      else .allow

/-- The predicate selecting the failures that `attempt_fixes` records in
its `fixed` list: fixable, and the dispatched fixer reported success. -/
def claimedFixed (fixers : String → Option (Issue → Bool))
    (genericFix : Issue → Bool) (i : Issue) : Bool :=
  i.fixable && dispatch_fix fixers genericFix i

/-- The `attempted` counter of the `attempt_fixes` loop counts exactly
the fixable failures seen so far. -/
theorem af_foldl_attempted (fixers : String → Option (Issue → Bool))
    (genericFix : Issue → Bool) :
    ∀ (l : List Issue) (acc : FixResults),
      (l.foldl (attempt_fixes_step fixers genericFix) acc).attempted
        = acc.attempted + (l.filter (fun i => i.fixable)).length := by
  intro l
  induction l with
  | nil => intro acc; simp
  | cons i t ih =>
    intro acc
    rw [List.foldl_cons, ih]
    cases hfix : i.fixable
    · simp [attempt_fixes_step, hfix, List.filter_cons]
    · cases hd : dispatch_fix fixers genericFix i <;>
        simp [attempt_fixes_step, hfix, hd, List.filter_cons] <;> omega

/-- The `fixed` list of the `attempt_fixes` loop collects exactly the
fixable failures whose dispatched fixer claimed success, in order. -/
theorem af_foldl_fixed (fixers : String → Option (Issue → Bool))
    (genericFix : Issue → Bool) :
    ∀ (l : List Issue) (acc : FixResults),
      (l.foldl (attempt_fixes_step fixers genericFix) acc).fixed
        = acc.fixed ++ l.filter (claimedFixed fixers genericFix) := by
  intro l
  induction l with
  | nil => intro acc; simp
  | cons i t ih =>
    intro acc
    rw [List.foldl_cons, ih]
    cases hfix : i.fixable
    · simp [attempt_fixes_step, claimedFixed, hfix, List.filter_cons]
    · cases hd : dispatch_fix fixers genericFix i <;>
        simp [attempt_fixes_step, claimedFixed, hfix, hd, List.filter_cons]

/-- The `failed` list of the `attempt_fixes` loop collects exactly the
fixable failures whose dispatched fixer reported failure, in order. -/
theorem af_foldl_failed (fixers : String → Option (Issue → Bool))
    (genericFix : Issue → Bool) :
    ∀ (l : List Issue) (acc : FixResults),
      (l.foldl (attempt_fixes_step fixers genericFix) acc).failed
        = acc.failed ++ l.filter (fun i => i.fixable && !dispatch_fix fixers genericFix i) := by
  intro l
  induction l with
  | nil => intro acc; simp
  | cons i t ih =>
    intro acc
    rw [List.foldl_cons, ih]
    cases hfix : i.fixable
    · simp [attempt_fixes_step, hfix, List.filter_cons]
    · cases hd : dispatch_fix fixers genericFix i <;>
        simp [attempt_fixes_step, hfix, hd, List.filter_cons]

/-- The `fixed_count` counter of the `attempt_fixes` loop matches the
length of the claimed-fixed filter. -/
theorem af_foldl_fixed_count (fixers : String → Option (Issue → Bool))
    (genericFix : Issue → Bool) :
    ∀ (l : List Issue) (acc : FixResults),
      (l.foldl (attempt_fixes_step fixers genericFix) acc).fixed_count
        = acc.fixed_count + (l.filter (claimedFixed fixers genericFix)).length := by
  intro l
  induction l with
  | nil => intro acc; simp
  | cons i t ih =>
    intro acc
    rw [List.foldl_cons, ih]
    cases hfix : i.fixable
    · simp [attempt_fixes_step, claimedFixed, hfix, List.filter_cons]
    · cases hd : dispatch_fix fixers genericFix i
      · simp [attempt_fixes_step, claimedFixed, hfix, hd, List.filter_cons]
      · simp [attempt_fixes_step, claimedFixed, hfix, hd, List.filter_cons]
        omega

/-- `attempt_fixes` in closed form: counters and lists are filters of the
input failures, and `all_fixed` compares the count of claimed fixes with
the length of the whole failure list. -/
theorem attempt_fixes_spec (fixers : String → Option (Issue → Bool))
    (genericFix : Issue → Bool) (failures : List Issue) :
    (attempt_fixes fixers genericFix failures).attempted
        = (failures.filter (fun i => i.fixable)).length ∧
    (attempt_fixes fixers genericFix failures).fixed
        = failures.filter (claimedFixed fixers genericFix) ∧
    (attempt_fixes fixers genericFix failures).failed
        = failures.filter (fun i => i.fixable && !dispatch_fix fixers genericFix i) ∧
    (attempt_fixes fixers genericFix failures).fixed_count
        = (failures.filter (claimedFixed fixers genericFix)).length ∧
    (attempt_fixes fixers genericFix failures).all_fixed
        = ((failures.filter (claimedFixed fixers genericFix)).length == failures.length) := by
  refine ⟨?_, ?_, ?_, ?_, ?_⟩ <;>
    simp [attempt_fixes, af_foldl_attempted, af_foldl_fixed, af_foldl_failed,
      af_foldl_fixed_count]

/-- Appending loops in closed form: folding list-append of `f` over `l`
is the concatenation of all the f-blocks after the accumulator. -/
theorem foldl_append_eq_join {α β : Type} (f : α → List β) :
    ∀ (l : List α) (acc : List β),
      l.foldl (fun a x => a ++ f x) acc = acc ++ (l.map f).flatten := by
  intro l
  induction l with
  | nil => intro acc; simp
  | cons x t ih => intro acc; rw [List.foldl_cons, ih]; simp

/-- C3: classification is empty on success — for every stage kind,
command, output text and exit code, a stage result with `success = true`
contributes no issues in `run_all_tests`, even when the output text is
one the failure patterns would match. -/
theorem classify_success_returns_no_issues
    (findall : String → String → List (List String)) (kind : StageKind)
    (command output : String) (returncode : Int) :
    stage_issues findall kind command
      { success := true, output := output, returncode := returncode } = [] := rfl

/-- C4: the Stage Runner is total over subprocess outcomes — on timeout
it returns a failed result with exit code `-1` and the fixed
timed-out message as output, and on a launch failure it returns a failed
result with exit code `-1` carrying the underlying error message;
neither case raises to the caller. -/
theorem stage_runner_timeout_and_launch_failure :
    run_command ProcResult.timedOut
      = { success := false, output := "Command timed out after 60 seconds", returncode := -1 } ∧
    ∀ msg : String, run_command (ProcResult.failed msg)
      = { success := false, output := msg, returncode := -1 } :=
  ⟨rfl, fun _ => rfl⟩

/-- C5: each failure parser applies its stage-kind's patterns in their
fixed list order without short-circuiting — the result is the
concatenation of the matches of every pattern, truncated to at most 10
issues — and every parser, the build one included, returns at most 10
issues. -/
theorem classifier_fixed_order_concat_truncate
    (findall : String → String → List (List String)) (output command : String) :
    (parse_test_failures findall output command
        = ((test_failure_patterns.map
            (fun p => (findall p output).map (mkTestIssue command))).flatten).take 10 ∧
      (parse_test_failures findall output command).length ≤ 10) ∧
    (parse_lint_failures findall output command
        = ((lint_failure_patterns.map
            (fun p => (findall p output).map (mkLintIssue command))).flatten).take 10 ∧
      (parse_lint_failures findall output command).length ≤ 10) ∧
    (parse_type_failures findall output command
        = ((type_failure_patterns.map
            (fun p => (findall p output).map (mkTypeIssue command))).flatten).take 10 ∧
      (parse_type_failures findall output command).length ≤ 10) ∧
    (parse_build_failures output command).length ≤ 10 := by
  refine ⟨⟨?_, ?_⟩, ⟨?_, ?_⟩, ⟨?_, ?_⟩, ?_⟩
  · rw [parse_test_failures, foldl_append_eq_join]; simp
  · simp [parse_test_failures, List.length_take]
  · rw [parse_lint_failures, foldl_append_eq_join]; simp
  · simp [parse_lint_failures, List.length_take]
  · rw [parse_type_failures, foldl_append_eq_join]; simp
  · simp [parse_type_failures, List.length_take]
  · rw [parse_build_failures]
    split_ifs <;> simp

/-- C7: on a completion attempt whose verification pass completes
without internal error, the gate allows exactly when the check pass
produced no issues — it emits a block action if and only if the issue
list is non-empty. -/
theorem gate_blocks_iff_issues (t : ToolInput) (issues : List GIssue)
    (h : should_check t = true) :
    (check_completion t (Except.ok issues)).allowed = issues.isEmpty ∧
    (check_completion t (Except.ok issues) = GateResult.allow ↔ issues = []) := by
  cases issues <;> simp [check_completion, h, GateResult.allowed]

/-- C7 witness: a concrete completion attempt, blocked on one issue and
allowed on none. -/
theorem gate_blocks_iff_issues_witness :
    should_check { tool_name := "Bash", command := "echo all done" } = true ∧
    (check_completion { tool_name := "Bash", command := "echo all done" }
        (Except.ok [{ type := "lint" }])).allowed = false ∧
    (check_completion { tool_name := "Bash", command := "echo all done" }
        (Except.ok [])).allowed = true := by
  refine ⟨by decide, ?_, ?_⟩
  · exact (gate_blocks_iff_issues _ [{ type := "lint" }] (by decide)).1
  · exact (gate_blocks_iff_issues _ [] (by decide)).1

/-- C8: on a completion attempt in which the verification pass itself
raises an internal error, the gate fails open and allows instead of
blocking. -/
theorem gate_fails_open_on_internal_error (t : ToolInput) (e : String)
    (h : should_check t = true) :
    check_completion t (Except.error e) = GateResult.allow := by
  simp [check_completion, h]

/-- C8 witness: a concrete completion attempt whose checks raised. -/
theorem gate_fails_open_on_internal_error_witness :
    should_check { tool_name := "Bash", command := "echo task complete" } = true ∧
    check_completion { tool_name := "Bash", command := "echo task complete" }
      (Except.error "classifier crashed") = GateResult.allow :=
  ⟨by decide,
   gate_fails_open_on_internal_error _ "classifier crashed" (by decide)⟩

/-- C9: when the body of a fix strategy raises an internal error, the
strategy's `except` wrapper turns the attempt into `false`; the fixer
itself is a total boolean function, so no error reaches the caller. -/
theorem strategy_error_treated_as_false
    (fs : String → Except String String) (w : String → String → Except String Unit)
    (run : String → CmdResult) (search_module : String → Option String)
    (failure : Issue) (e e' : String) :
    (fix_missing_import_js_body fs w failure = Except.error e →
      fix_missing_import_js fs w failure = false) ∧
    (fix_import_error_py_body fs run search_module failure = Except.error e' →
      fix_import_error_py fs run search_module failure = false) := by
  constructor
  · intro h; simp [fix_missing_import_js, h]
  · intro h; simp [fix_import_error_py, h]

/-- C9 witness: a filesystem whose reads raise makes both strategy
bodies error, and both fixers report `false`. -/
theorem strategy_error_treated_as_false_witness :
    fix_missing_import_js_body (fun _ => Except.error "ENOENT") (fun _ _ => Except.ok ())
        { type := "missing_import", command := "npm test",
          file := some "app.js", fixable := true } = Except.error "ENOENT" ∧
    fix_missing_import_js (fun _ => Except.error "ENOENT") (fun _ _ => Except.ok ())
        { type := "missing_import", command := "npm test",
          file := some "app.js", fixable := true } = false ∧
    fix_import_error_py_body (fun _ => Except.error "ENOENT")
        (fun _ => run_command ProcResult.timedOut) (fun _ => none)
        { type := "import_error", command := "pytest",
          file := some "m.py", fixable := true } = Except.error "ENOENT" ∧
    fix_import_error_py (fun _ => Except.error "ENOENT")
        (fun _ => run_command ProcResult.timedOut) (fun _ => none)
        { type := "import_error", command := "pytest",
          file := some "m.py", fixable := true } = false := by
  refine ⟨rfl, ?_, rfl, ?_⟩
  · exact (strategy_error_treated_as_false (fun _ => Except.error "ENOENT")
      (fun _ _ => Except.ok ()) (fun _ => run_command ProcResult.timedOut) (fun _ => none)
      { type := "missing_import", command := "npm test",
        file := some "app.js", fixable := true } "ENOENT" "ENOENT").1 rfl
  · exact (strategy_error_treated_as_false (fun _ => Except.error "ENOENT")
      (fun _ _ => Except.ok ()) (fun _ => run_command ProcResult.timedOut) (fun _ => none)
      { type := "import_error", command := "pytest",
        file := some "m.py", fixable := true } "ENOENT" "ENOENT").2 rfl

/-- C10: the git-status check contributes a (blocking) issue exactly
when the porcelain output is non-empty and its stripped line count —
one line per file with uncommitted changes — exceeds 10; and on a
completion attempt whose other checks are clean, up to 10 uncommitted
files never block: the gate allows. -/
theorem git_status_blocks_only_above_ten (stdout : String) :
    (check_git_status stdout = [] ↔
      stdout = "" ∨ (pySplitNl (pyStrip stdout)).length ≤ 10) ∧
    (∀ t : ToolInput, should_check t = true →
      (pySplitNl (pyStrip stdout)).length ≤ 10 →
      check_completion t (Except.ok (run_checks [] [] [] [] stdout))
        = GateResult.allow) := by
  have hgit : check_git_status stdout = [] ↔
      stdout = "" ∨ (pySplitNl (pyStrip stdout)).length ≤ 10 := by
    simp only [check_git_status]
    split_ifs with h1 h2
    · simp [(String.isEmpty_iff _).mp h1]
    · have hne : stdout ≠ "" := fun h => by subst h; exact h1 rfl
      simp only [hne, false_or, List.cons_ne_nil, false_iff]
      omega
    · have hne : stdout ≠ "" := fun h => by subst h; exact h1 rfl
      simp only [hne, false_or, true_iff]
      omega
  refine ⟨hgit, fun t ht hle => ?_⟩
  have hempty : check_git_status stdout = [] := hgit.mpr (Or.inr hle)
  simp [run_checks, hempty, check_completion, ht]

/-- C10 witness: two uncommitted files contribute nothing and the gate
allows a concrete completion attempt, while eleven uncommitted files do
contribute a git warning. -/
theorem git_status_blocks_only_above_ten_witness :
    check_git_status "M a\nM b" = [] ∧
    check_completion { tool_name := "Bash", command := "echo all done" }
      (Except.ok (run_checks [] [] [] [] "M a\nM b")) = GateResult.allow ∧
    check_git_status "1\n2\n3\n4\n5\n6\n7\n8\n9\n10\n11" ≠ [] := by
  refine ⟨?_, ?_, by decide⟩
  · exact (git_status_blocks_only_above_ten "M a\nM b").1.mpr (Or.inr (by decide))
  · exact (git_status_blocks_only_above_ten "M a\nM b").2
      { tool_name := "Bash", command := "echo all done" } (by decide) (by decide)

/-- A test failure that no strategy resolves, used as the concrete
never-resolving issue in the remediation-flow counterexamples. -/
def neverIssue : Issue :=
  { type := "test_failure", command := "pytest", fixable := true }

/-- C1 counterexample: with `max_fix_attempts = 3` and an issue that
never resolves (no registered fixer, generic fix fails, every
verification pass reports it), the flow performs exactly 1 fix round —
not 3 — ending with `all_fixed = false`; `max_fix_attempts` is never
consulted by `run_comprehensive_test`. -/
theorem remediation_rounds_counterexample :
    max_fix_attempts = 3 ∧
    (run_comprehensive_flow (fun _ => [neverIssue]) (fun _ => none) (fun _ => false)).fixRounds
      = 1 ∧
    (run_comprehensive_flow (fun _ => [neverIssue]) (fun _ => none) (fun _ => false)).fixRounds
      ≠ max_fix_attempts ∧
    (run_comprehensive_flow (fun _ => [neverIssue]) (fun _ => none) (fun _ => false)).all_fixed
      = some false := by decide

/-- C1 amended: the remediation flow always terminates with at most one
fix pass (hence within `maxFixAttempts = 3`) and at most two
verification passes; when the initial verification reports issues and
every strategy fails, exactly 1 fix round runs and the flow ends with
`all_fixed = false` and the could-not-fix report. -/
theorem remediation_single_round_terminates :
    (∀ (runTests : Nat → List Issue) (fixers : String → Option (Issue → Bool))
        (genericFix : Issue → Bool),
      (run_comprehensive_flow runTests fixers genericFix).fixRounds ≤ 1 ∧
      (run_comprehensive_flow runTests fixers genericFix).fixRounds ≤ max_fix_attempts ∧
      (run_comprehensive_flow runTests fixers genericFix).verifyPasses ≤ 2) ∧
    (∀ (runTests : Nat → List Issue) (fixers : String → Option (Issue → Bool))
        (genericFix : Issue → Bool),
      runTests 0 ≠ [] →
      (∀ ty f, fixers ty = some f → ∀ i, f i = false) →
      (∀ i, genericFix i = false) →
      (run_comprehensive_flow runTests fixers genericFix).fixRounds = 1 ∧
      (run_comprehensive_flow runTests fixers genericFix).all_fixed = some false ∧
      (run_comprehensive_flow runTests fixers genericFix).outcome
        = FlowOutcome.fixesFailed) := by
  constructor
  · intro runTests fixers genericFix
    simp only [run_comprehensive_flow]
    split_ifs <;> simp [max_fix_attempts]
  · intro runTests fixers genericFix h0 hf hg
    have hdisp : ∀ i, dispatch_fix fixers genericFix i = false := by
      intro i
      unfold dispatch_fix
      cases hft : fixers i.type with
      | none => exact hg i
      | some f => exact hf _ f hft i
    have hfilter : (runTests 0).filter (claimedFixed fixers genericFix) = [] :=
      List.filter_eq_nil_iff.mpr (fun a _ => by simp [claimedFixed, hdisp a])
    have hall : (attempt_fixes fixers genericFix (runTests 0)).all_fixed = false := by
      rw [(attempt_fixes_spec fixers genericFix (runTests 0)).2.2.2.2, hfilter]
      simp only [List.length_nil]
      cases hbeq : ((0 : Nat) == (runTests 0).length) with
      | false => rfl
      | true =>
        exact absurd (List.length_eq_zero.mp (beq_iff_eq.mp hbeq).symm) h0
    refine ⟨?_, ?_, ?_⟩ <;> simp [run_comprehensive_flow, List.isEmpty_iff, h0, hall]

/-- C1 witness: the bound and the never-resolving case at concrete
inputs. -/
theorem remediation_single_round_terminates_witness :
    (run_comprehensive_flow (fun _ => [neverIssue]) (fun _ => none) (fun _ => false)).fixRounds
        ≤ max_fix_attempts ∧
    (run_comprehensive_flow (fun _ => [neverIssue]) (fun _ => none) (fun _ => false)).all_fixed
        = some false := by
  have h1 := (remediation_single_round_terminates.1
    (fun _ => [neverIssue]) (fun _ => none) (fun _ => false)).2.1
  have h2 := (remediation_single_round_terminates.2
    (fun _ => [neverIssue]) (fun _ => none) (fun _ => false)
    (by decide) (by intro ty f hf i; cases hf) (fun _ => rfl)).2.1
  exact ⟨h1, h2⟩

/-- The `common_fixes` table of a run in which the registered strategy
for `test_failure` claims success on every issue; used to exhibit the
re-verification behaviour. -/
def claimedFixers : String → Option (Issue → Bool) :=
  fun ty => if ty == "test_failure" then some (fun _ => true) else none

/-- C2 counterexample: the strategy reports `true` for the issue, the
issue reappears in the verification pass that follows (`runTests 1`
still lists it), yet `all_fixed` is `true` — computed from the claimed
success before any re-verification — and the final report counts the
issue as fixed (it sits in the `fixed` list and in `fixed_count = 1` of
the partial report) rather than classifying it as unresolved. -/
theorem reverification_authority_counterexample :
    (attempt_fixes claimedFixers (fun _ => false) [neverIssue]).all_fixed = true ∧
    neverIssue ∈ (attempt_fixes claimedFixers (fun _ => false) [neverIssue]).fixed ∧
    (run_comprehensive_flow (fun _ => [neverIssue]) claimedFixers (fun _ => false)).all_fixed
      = some true ∧
    (run_comprehensive_flow (fun _ => [neverIssue]) claimedFixers (fun _ => false)).outcome
      = FlowOutcome.partiallyFixed 1 1 := by decide

/-- C2 amended: the all-fixed flag is determined solely by the
strategies' claimed successes of the single fix pass — it is unchanged
under any change of the re-verification outcome — an issue whose
strategy claimed success stays classified in the `fixed` list
regardless of re-verification, and the re-verification pass (which runs
only when every failure's fix was claimed) decides only whether the
full-success or the partial report is produced, contributing the
remaining-failure count of the partial report. -/
theorem all_fixed_from_claims_only
    (runTests runTests' : Nat → List Issue)
    (fixers : String → Option (Issue → Bool)) (genericFix : Issue → Bool)
    (hsame : runTests 0 = runTests' 0) :
    (run_comprehensive_flow runTests fixers genericFix).all_fixed
      = (run_comprehensive_flow runTests' fixers genericFix).all_fixed ∧
    (∀ i, i ∈ runTests 0 → claimedFixed fixers genericFix i = true →
      i ∈ (attempt_fixes fixers genericFix (runTests 0)).fixed) ∧
    (runTests 0 ≠ [] →
      (attempt_fixes fixers genericFix (runTests 0)).all_fixed = true →
      (run_comprehensive_flow runTests fixers genericFix).outcome =
        if (runTests 1).isEmpty
        then FlowOutcome.fullyFixed
          (attempt_fixes fixers genericFix (runTests 0)).fixed_count
        else FlowOutcome.partiallyFixed
          (attempt_fixes fixers genericFix (runTests 0)).fixed_count
          (runTests 1).length) := by
  refine ⟨?_, ?_, ?_⟩
  · simp only [run_comprehensive_flow, hsame]
    split_ifs <;> rfl
  · intro i hi hclaim
    rw [(attempt_fixes_spec fixers genericFix (runTests 0)).2.1]
    exact List.mem_filter.mpr ⟨hi, hclaim⟩
  · intro h0 hfx
    simp only [run_comprehensive_flow, List.isEmpty_iff, h0, hfx, if_true]
    split_ifs <;> simp_all [List.isEmpty_iff]

/-- C2 amended witness: at the concrete claiming fixer, the flag equals
the one of a run whose re-verification is clean, the claimed issue is in
the fixed list, and the report is the partial one. -/
theorem all_fixed_from_claims_only_witness :
    (run_comprehensive_flow (fun _ => [neverIssue]) claimedFixers (fun _ => false)).all_fixed
      = (run_comprehensive_flow (fun k => if k == 0 then [neverIssue] else [])
          claimedFixers (fun _ => false)).all_fixed ∧
    neverIssue ∈ (attempt_fixes claimedFixers (fun _ => false) [neverIssue]).fixed ∧
    (run_comprehensive_flow (fun _ => [neverIssue]) claimedFixers (fun _ => false)).outcome
      = FlowOutcome.partiallyFixed 1 1 := by
  have h := all_fixed_from_claims_only (fun _ => [neverIssue])
    (fun k => if k == 0 then [neverIssue] else [])
    claimedFixers (fun _ => false) (by decide)
  refine ⟨h.1, h.2.1 neverIssue (by decide) (by decide), ?_⟩
  have h3 := h.2.2 (by decide) (by decide)
  simpa using h3

/-- C6 counterexample: a build stage that exits nonzero with output
matching no recognizable pattern yields NO issue at all — not an issue
with `fixable = false` — both for a docker build command and for a
non-docker build command. -/
theorem build_unrecognized_counterexample :
    parse_build_failures "error: exit status 1 unknown failure" "docker-compose build" = [] ∧
    stage_issues (fun _ _ => []) StageKind.build "docker-compose build"
      { success := false, output := "error: exit status 1 unknown failure",
        returncode := 1 } = [] ∧
    parse_build_failures "Module build failed: unexpected token" "npm run build" = [] := by
  decide

/-- C6 amended: for a build stage exiting nonzero whose output contains
no recognizable pattern, classification returns no issues at all; and
`fixable = false` issues are indeed never dispatched — they are not
counted as attempted and appear in neither the `fixed` nor the `failed`
list — so any such issue present among the failures leaves the run with
`all_fixed = false`. -/
theorem build_unrecognized_empty_and_unfixable_skipped :
    (∀ output command,
      (pyIn "docker" (strLower command) = true →
        pyIn "yaml" (strLower output) = false ∧ pyIn "yml" (strLower output) = false) →
      parse_build_failures output command = []) ∧
    (∀ (fixers : String → Option (Issue → Bool)) (genericFix : Issue → Bool)
        (issues : List Issue),
      (attempt_fixes fixers genericFix issues).attempted
        = (issues.filter (fun i => i.fixable)).length ∧
      (∀ i, i ∈ (attempt_fixes fixers genericFix issues).fixed → i.fixable = true) ∧
      (∀ i, i ∈ (attempt_fixes fixers genericFix issues).failed → i.fixable = true)) ∧
    (∀ (fixers : String → Option (Issue → Bool)) (genericFix : Issue → Bool)
        (issues : List Issue) (i : Issue), i ∈ issues → i.fixable = false →
      (attempt_fixes fixers genericFix issues).all_fixed = false) := by
  refine ⟨?_, ?_, ?_⟩
  · intro output command h
    rw [parse_build_failures]
    split_ifs with h1 h2
    · obtain ⟨hy, hm⟩ := h h1
      rw [hy, hm] at h2
      simp at h2
    · rfl
    · rfl
  · intro fixers genericFix issues
    obtain ⟨ha, hfx, hfl, -, -⟩ := attempt_fixes_spec fixers genericFix issues
    refine ⟨ha, ?_, ?_⟩
    · intro i hi
      rw [hfx] at hi
      exact Bool.and_elim_left (List.mem_filter.mp hi).2
    · intro i hi
      rw [hfl] at hi
      exact Bool.and_elim_left (List.mem_filter.mp hi).2
  · intro fixers genericFix issues i hi hunfix
    rw [(attempt_fixes_spec fixers genericFix issues).2.2.2.2]
    have hlt : (issues.filter (claimedFixed fixers genericFix)).length < issues.length :=
      List.length_filter_lt_length_iff_exists.mpr
        ⟨i, hi, by simp [claimedFixed, hunfix]⟩
    cases hbeq : ((issues.filter (claimedFixed fixers genericFix)).length == issues.length)
    · rfl
    · exact absurd (beq_iff_eq.mp hbeq) (Nat.ne_of_lt hlt)

/-- C6 amended witness: concrete unrecognizable build outputs produce no
issues, and a concrete non-fixable issue is skipped and forces
`all_fixed = false`. -/
theorem build_unrecognized_empty_witness :
    parse_build_failures "error: exit status 1 unknown failure" "docker-compose build" = [] ∧
    (attempt_fixes (fun _ => none) (fun _ => true)
      [{ type := "build_error", command := "npm run build", fixable := false }]).attempted
      = 0 ∧
    (attempt_fixes (fun _ => none) (fun _ => true)
      [{ type := "build_error", command := "npm run build", fixable := false }]).all_fixed
      = false := by
  refine ⟨?_, ?_, ?_⟩
  · exact build_unrecognized_empty_and_unfixable_skipped.1
      "error: exit status 1 unknown failure" "docker-compose build" (by decide)
  · have h := (build_unrecognized_empty_and_unfixable_skipped.2.1 (fun _ => none)
      (fun _ => true)
      [{ type := "build_error", command := "npm run build", fixable := false }]).1
    simpa using h
  · exact build_unrecognized_empty_and_unfixable_skipped.2.2 (fun _ => none)
      (fun _ => true)
      [{ type := "build_error", command := "npm run build", fixable := false }]
      { type := "build_error", command := "npm run build", fixable := false }
      (by decide) rfl
